import Mathlib

/-!
Verification development for the Naver login automation service
(`src/main.py`).  The Python code is shallowly embedded: every external
call (playwright, environment, page DOM) is represented by a field of an
`Oracle` record giving that call's result, and the two functions
`connect_to_browserless` / `naver_login` become pure Lean functions from
the oracle to an `Except`-typed result together with a trace of events
(log lines, input actions, resource acquisitions and releases).
-/

deriving instance DecidableEq for Except

/-- Model of a Python exception value (all modelled errors are
`Exception` subclasses).  `timeout sel` models a playwright
`TimeoutError` raised while waiting for / acting on selector `sel`;
its `str` includes the selector, as playwright's message does.
`connectionError` exists only so that "wrapped as ConnectionError"
claims are expressible. -/
inductive PyErr : Type where
  | valueError (msg : String)
  | exn (msg : String)
  | timeout (sel : String)
  | connectionError (msg : String)
deriving DecidableEq, Repr

/-- Python `str(e)` for the modelled exceptions. -/
def pyStr : PyErr → String
  | .valueError m => m
  | .exn m => m
  | .timeout sel => "Timeout exceeded while waiting for selector " ++ sel
  | .connectionError m => m

def isConnErr : PyErr → Bool
  | .connectionError _ => true
  | _ => false

/-- Python `repr` of a bool inside an f-string. -/
def pyBool : Bool → String
  | true => "True"
  | false => "False"

/-- The `LoginResponse` pydantic model: `success`, `message`,
`cookies` (absent = Python `None`). -/
structure LoginResponse : Type where
  success : Bool
  message : String
  cookies : Option (List (String × String))
deriving DecidableEq, Repr

/-- Phase events: everything emitted while the attempt runs
(log lines, navigations, DOM interactions, resource acquisitions). -/
inductive PEv : Type where
  | log (s : String)
  | browserAcq
  | ctxOpen
  | goto (url : String)
  | mouseMove
  | focus (sel : String)
  | keyPress (k : String)
  | typeChar (c : Char)
  | inputValue (sel : String)
  | click (sel : String)
  | pressSel (sel : String) (k : String)
deriving DecidableEq, Repr

/-- Release events: the three resource releases of the attempt. -/
inductive REv : Type where
  | ctxClose
  | browserClose
  | pwStop
deriving DecidableEq, Repr

/-- A trace event: either a phase event or a resource release. -/
inductive Ev : Type where
  | act (e : PEv)
  | rel (r : REv)
deriving DecidableEq, Repr

def isRel : Ev → Bool
  | .rel _ => true
  | .act _ => false

/-- Project the log lines out of a phase-event list. -/
def logsP (evs : List PEv) : List String :=
  evs.filterMap fun e => match e with
    | .log s => some s
    | _ => none

/-- Project the log lines out of a full trace. -/
def logsOf (evs : List Ev) : List String :=
  evs.filterMap fun e => match e with
    | .act (.log s) => some s
    | _ => none

/-! ## Python string helpers -/

/-- Bounded-fuel core of Python's `str.replace` on character lists:
replace every non-overlapping occurrence of `needle` (left to right). -/
def pyReplaceGo (needle repl : List Char) : Nat → List Char → List Char
  | 0, s => s
  | _ + 1, [] => []
  | fuel + 1, c :: rest =>
    if needle ≠ [] ∧ needle.isPrefixOf (c :: rest) then
      repl ++ pyReplaceGo needle repl fuel ((c :: rest).drop needle.length)
    else
      c :: pyReplaceGo needle repl fuel rest

/-- Python `s.replace(needle, repl)`. -/
def pyReplace (s needle repl : String) : String :=
  ⟨pyReplaceGo needle.data repl.data s.data.length s.data⟩

/-- `needle` occurs as a contiguous sublist of the second argument. -/
def listHasInfix (needle : List Char) : List Char → Bool
  | [] => needle.isEmpty
  | c :: rest => needle.isPrefixOf (c :: rest) || listHasInfix needle rest

/-- Python's `needle in hay` on strings. -/
def pyIn (needle hay : String) : Bool :=
  listHasInfix needle.data hay.data

/-- Python `str.lower` (ASCII, as used on URLs here). -/
def pyLower (s : String) : String := ⟨s.data.map Char.toLower⟩

/-- Python `s.startswith(pre)`. -/
def pyStartsWith (s pre : String) : Bool := pre.data.isPrefixOf s.data

/-- Python `str.strip` (whitespace strip from both ends). -/
def pyStrip (s : String) : String :=
  ⟨((s.data.dropWhile Char.isWhitespace).reverse.dropWhile Char.isWhitespace).reverse⟩

/-! ## Cookie dictionary (`{c['name']: c['value'] for c in cookies}`) -/

/-- Python dict assignment `d[k] = v`: overwrite in place or append. -/
def dictInsert (k v : String) (d : List (String × String)) : List (String × String) :=
  if d.any (fun p => p.1 == k) then
    d.map (fun p => if p.1 == k then (k, v) else p)
  else d ++ [(k, v)]

/-- The dict comprehension over the cookie list: keys unique, insertion
order kept, last value per name wins. -/
def cookieDict (cs : List (String × String)) : List (String × String) :=
  cs.foldl (fun d c => dictInsert c.1 c.2 d) []

def dictHasKey (d : List (String × String)) (k : String) : Bool :=
  d.any (fun p => p.1 == k)

/-! ## Result-with-trace combinators -/

/-- Result of a phase of the attempt: a value or a raised exception,
together with the phase events emitted before returning/raising. -/
def ResP (α : Type) : Type := Except PyErr α × List PEv

/-- Sequencing with short-circuit on a raised exception (the Python
control flow of consecutive `await`s). -/
def rbind {α β : Type} (r : ResP α) (f : α → ResP β) : ResP β :=
  match r with
  | (.error e, evs) => (.error e, evs)
  | (.ok a, evs) => ((f a).1, evs ++ (f a).2)

def withEvs {α : Type} (es : List PEv) (r : ResP α) : ResP α :=
  (r.1, es ++ r.2)

def rlog (s : String) : ResP Unit := (.ok (), [.log s])

/-- An awaited call with no interesting event. -/
def rcallE (x : Except PyErr Unit) : ResP Unit := (x, [])

def rnav (x : Except PyErr Unit) (url : String) : ResP Unit := (x, [.goto url])

/-- `page.wait_for_selector(sel, timeout=…)`: either the element
appears or a `TimeoutError` naming the selector is raised. -/
def rwait (sel : String) (ok : Bool) : ResP Unit :=
  (if ok then .ok () else .error (.timeout sel), [])

def rmove (x : Except PyErr Unit) : ResP Unit := (x, [.mouseMove])

def rfocus (sel : String) (ok : Bool) : ResP Unit :=
  (if ok then .ok () else .error (.timeout sel), [.focus sel])

def rkey (k : String) (x : Except PyErr Unit) : ResP Unit := (x, [.keyPress k])

def rinput (sel : String) (x : Except PyErr String) : ResP String :=
  (x, [.inputValue sel])

theorem rbind_fst_ok {α β : Type} {r : ResP α} {a : α} (f : α → ResP β)
    (h : r.1 = .ok a) : (rbind r f).1 = (f a).1 := by
  rcases r with ⟨x, evs⟩
  cases x <;> simp_all [rbind]

theorem rbind_fst_error {α β : Type} {r : ResP α} {e : PyErr} (f : α → ResP β)
    (h : r.1 = .error e) : (rbind r f).1 = .error e := by
  rcases r with ⟨x, evs⟩
  cases x <;> simp_all [rbind]

/-! ## The oracle: results of every external call of one attempt -/

/-- Results that the environment (playwright, the remote browser, the
page DOM) returns for each call the attempt makes, in program order.
Calls inside loops are indexed by their iteration (candidate index,
character index, selector index).  `Bool`-valued fields model
`wait_for_selector` / `focus` style calls whose only failure is a
`TimeoutError` naming the selector. -/
structure Oracle : Type where
  /-- `os.getenv("BROWSERLESS_WS_URL")`. -/
  env : Option String
  /-- `async_playwright().start()`. -/
  pwStart : Except PyErr Unit
  /-- `playwright.chromium.connect_over_cdp(url)` for candidate `i`. -/
  connectAttempt : Nat → Except PyErr Unit
  /-- liveness probe `browser.new_page()` for candidate `i`. -/
  livenessNewPage : Nat → Except PyErr Unit
  /-- liveness probe `page.close()` for candidate `i`. -/
  livenessPageClose : Nat → Except PyErr Unit
  /-- `playwright.stop()` inside `connect_to_browserless`'s handler. -/
  pwStopInConnect : Except PyErr Unit
  /-- `browser.new_context(...)`. -/
  newContext : Except PyErr Unit
  /-- `context.new_page()`. -/
  newPage : Except PyErr Unit
  gotoMain : Except PyErr Unit
  gotoLogin : Except PyErr Unit
  /-- `wait_for_selector("#frmNIDLogin")` found in time. -/
  waitForm : Bool
  /-- `wait_for_selector("#id")` found in time. -/
  waitId : Bool
  mouseMove1 : Except PyErr Unit
  mouseMove2 : Except PyErr Unit
  /-- `page.focus("#id")` succeeded. -/
  focusId : Bool
  pressCtrlA1 : Except PyErr Unit
  pressDel1 : Except PyErr Unit
  /-- `keyboard.type(char)` for the i-th username character. -/
  typeId : Nat → Except PyErr Unit
  /-- `page.input_value("#id")`. -/
  inputValueId : Except PyErr String
  mouseMove3 : Except PyErr Unit
  pressTab : Except PyErr Unit
  /-- `page.focus("#pw")` succeeded. -/
  focusPw : Bool
  pressCtrlA2 : Except PyErr Unit
  pressDel2 : Except PyErr Unit
  /-- `keyboard.type(char)` for the i-th password character. -/
  typePw : Nat → Except PyErr Unit
  /-- `page.input_value("#pw")`. -/
  inputValuePw : Except PyErr String
  /-- `page.query_selector(sel)` for submit candidate `i`:
  `.ok true` = element found, `.ok false` = `None`. -/
  query : Nat → Except PyErr Bool
  /-- `button.is_visible()` for submit candidate `i`. -/
  isVisible : Nat → Except PyErr Bool
  /-- `button.is_enabled()` for submit candidate `i`. -/
  isEnabled : Nat → Except PyErr Bool
  /-- `button.inner_text()` for submit candidate `i`. -/
  innerText : Nat → Except PyErr String
  /-- `button.click()` for submit candidate `i`. -/
  click : Nat → Except PyErr Unit
  /-- fallback `page.press("#pw", "Enter")`. -/
  pressEnter : Except PyErr Unit
  /-- `wait_for_url("https://www.naver.com/")` reached before timeout. -/
  waitUrl : Bool
  /-- `context.cookies()` in the success branch. -/
  cookiesOk : Except PyErr (List (String × String))
  /-- `page.url` after the timeout. -/
  currentUrl : String
  /-- `page.title()`. -/
  pageTitle : Except PyErr String
  /-- `page.query_selector_all(sel)` for error-text selector `i`;
  each element's `inner_text()` result is listed. -/
  qsa : Nat → Except PyErr (List (Except PyErr String))
  /-- `context.cookies()` in the timeout branch. -/
  cookiesTimeout : Except PyErr (List (String × String))
  /-- `context.close()` in the `finally` block. -/
  ctxCloseRes : Except PyErr Unit
  /-- `browser.close()` in the `finally` block. -/
  browserCloseRes : Except PyErr Unit
  /-- `playwright.stop()` in the `finally` block. -/
  pwStopRes : Except PyErr Unit

/-! ## `connect_to_browserless` -/

def envMsg : String := "BROWSERLESS_WS_URL 환경변수가 설정되지 않았습니다"

/-- The ordered connection candidates built from the endpoint. -/
def candidateList (url : String) : List String :=
  if pyStartsWith url "wss://" then
    let httpUrl := pyReplace (pyReplace url "wss://" "https://") "/playwright" ""
    [url,
     httpUrl ++ "/json/version",
     pyReplace url "/playwright" "/chromium",
     pyReplace url "?token=" "/websocket?token="]
  else [url]

/-- The `for url in connection_options` loop: try each candidate;
a candidate whose `connect_over_cdp` succeeds is returned at once
(degraded or not — a failed liveness probe is logged, not fatal);
a candidate failure records `last_error` and continues; exhaustion
raises `last_error` (or a generic exception when none was recorded). -/
def connectLoop (o : Oracle) : List (Nat × String) → Option PyErr → ResP Unit
  | [], last =>
    (.error (match last with
      | some e => e
      | none => .exn "모든 연결 시도 실패"), [])
  | (i, url) :: rest, _last =>
    rbind (rlog ("연결 시도 중: " ++ url)) fun _ =>
    match o.connectAttempt i with
    | .error e =>
      rbind (rlog ("❌ 연결 실패 (" ++ url ++ "): " ++ pyStr e)) fun _ =>
      connectLoop o rest (some e)
    | .ok _ =>
      withEvs [.browserAcq]
      (match o.livenessNewPage i with
       | .error te =>
         (.ok (), [.log ("브라우저 테스트 실패: " ++ pyStr te),
                   .log ("✅ Browserless 기본 연결 성공: " ++ url)])
       | .ok _ =>
         match o.livenessPageClose i with
         | .error te =>
           (.ok (), [.log ("브라우저 테스트 실패: " ++ pyStr te),
                     .log ("✅ Browserless 기본 연결 성공: " ++ url)])
         | .ok _ =>
           (.ok (), [.log ("✅ Browserless 연결 및 테스트 성공: " ++ url)]))

/-- The `try` body and handler of `connect_to_browserless` once the
driver started: run the candidate loop; on total failure the handler
logs, stops the driver (release precedes the raise), and re-raises the
loop's error (or the stop's own error, if the unguarded stop throws). -/
def connectHandler (o : Oracle) (url : String) : ResP Unit → Except PyErr Unit × List Ev
  | (.ok _, levs) =>
    (.ok (), Ev.act (.log ("Browserless 연결 시도: " ++ url)) :: levs.map Ev.act)
  | (.error e, levs) =>
    ((match o.pwStopInConnect with
      | .ok _ => Except.error e
      | .error e2 => Except.error e2),
     Ev.act (.log ("Browserless 연결 시도: " ++ url)) :: levs.map Ev.act ++
       [Ev.act (.log ("Browserless 연결 실패: " ++ pyStr e)), Ev.rel .pwStop])

def connectBody (o : Oracle) (url : String) : Except PyErr Unit × List Ev :=
  connectHandler o url (connectLoop o (candidateList url).enum none)

/-- `connect_to_browserless`: env check (fatal `ValueError` before the
driver is started), driver start, then the candidate loop with its
handler. `.ok` means `(playwright, browser)` was returned. -/
def connectRun (o : Oracle) : Except PyErr Unit × List Ev :=
  match o.env with
  | none => (.error (.valueError envMsg), [])
  | some url =>
    if url == "" then (.error (.valueError envMsg), [])
    else
      match o.pwStart with
      | .error e => (.error e, [])
      | .ok _ => connectBody o url

/-! ## `naver_login`: form flow -/

/-- Per-character typing loop: each character is dispatched as a
discrete keystroke (`keyboard.type(char)`), any of which may throw. -/
def typeLoop (f : Nat → Except PyErr Unit) (i : Nat) : List Char → ResP Unit
  | [] => (.ok (), [])
  | c :: rest =>
    match f i with
    | .error e => (.error e, [.typeChar c])
    | .ok _ => withEvs [.typeChar c] (typeLoop f (i + 1) rest)

/-- Lines 120–159: page creation, navigation, form wait, identity-field
wait, pointer movement, focus and clearing, up to (not including) the
username typing loop. -/
def preType (o : Oracle) : ResP Unit :=
  rbind (rcallE o.newPage) fun _ =>
  rbind (rlog "네이버 로그인 페이지로 이동 중...") fun _ =>
  rbind (rnav o.gotoMain "https://www.naver.com") fun _ =>
  rbind (rnav o.gotoLogin "https://nid.naver.com/nidlogin.login") fun _ =>
  rbind (rlog "로그인 폼 요소 찾는 중...") fun _ =>
  rbind (rlog "로그인 폼 요소 찾는 중...") fun _ =>
  rbind (rwait "#frmNIDLogin" o.waitForm) fun _ =>
  rbind (rlog "아이디 입력 중...") fun _ =>
  rbind (rwait "#id" o.waitId) fun _ =>
  rbind (rmove o.mouseMove1) fun _ =>
  rbind (rmove o.mouseMove2) fun _ =>
  rbind (rfocus "#id" o.focusId) fun _ =>
  rbind (rkey "Control+A" o.pressCtrlA1) fun _ =>
  rkey "Delete" o.pressDel1

/-- Lines 170–194: identity-value check and logging (the username value
is logged in full), move to the secret field, clear it. -/
def midFlow (o : Oracle) : ResP Unit :=
  rbind (rinput "#id" o.inputValueId) fun iv =>
  rbind (rlog ("아이디 입력 확인: \x27" ++ iv ++ "\x27 (길이: " ++ toString iv.length ++ ")")) fun _ =>
  rbind (rlog "비밀번호 입력 중...") fun _ =>
  rbind (rmove o.mouseMove3) fun _ =>
  rbind (rkey "Tab" o.pressTab) fun _ =>
  rbind (rfocus "#pw" o.focusPw) fun _ =>
  rbind (rkey "Control+A" o.pressCtrlA2) fun _ =>
  rkey "Delete" o.pressDel2

/-- Lines 203–211: the secret value check logs only its length. -/
def postType (o : Oracle) : ResP Unit :=
  rbind (rinput "#pw" o.inputValuePw) fun pv =>
  rbind (rlog ("비밀번호 입력 확인: 길이 " ++ toString pv.length)) fun _ =>
  rlog "로그인 버튼 클릭..."

/-! ## Submit-control resolution -/

/-- The ranked submit-control candidate selectors of lines 214–221. -/
def loginButtonSelectors : List String :=
  ["#log\\.login",
   "button#log\\.login",
   ".btn_login.off.next_step",
   "#frmNIDLogin .btn_login",
   "button:has-text(\x27다음\x27)",
   "[id=\x27log.login\x27]"]

def submitFailLog (sel : String) (e : PyErr) : PEv :=
  .log ("버튼 셀렉터 " ++ sel ++ " 시도 실패: " ++ pyStr e)

/-- The probe log of lines 234–238: the inner-text read has its own
bare `except`, so its failure only shortens the log line. -/
def submitProbeLog (sel : String) (v en : Bool) (t : Except PyErr String) : PEv :=
  match t with
  | .ok txt =>
    .log ("버튼 셀렉터 " ++ sel ++ ": 존재함, 보임=" ++ pyBool v ++ ", 활성화=" ++
          pyBool en ++ ", 텍스트=\x27" ++ txt ++ "\x27")
  | .error _ =>
    .log ("버튼 셀렉터 " ++ sel ++ ": 존재함, 보임=" ++ pyBool v ++ ", 활성화=" ++ pyBool en)

/-- Lines 223–247: iterate candidates; click on existence + visibility
(the enabled state is logged but never used in the decision); any
exception from probing or clicking one candidate is caught by the
per-candidate handler and the loop continues.  Returns `login_clicked`;
this loop itself never raises. -/
def submitLoop (o : Oracle) : List (Nat × String) → ResP Bool
  | [] => (.ok false, [])
  | (i, sel) :: rest =>
    match o.query i with
    | .error e => withEvs [submitFailLog sel e] (submitLoop o rest)
    | .ok false => submitLoop o rest
    | .ok true =>
      match o.isVisible i with
      | .error e => withEvs [submitFailLog sel e] (submitLoop o rest)
      | .ok v =>
        match o.isEnabled i with
        | .error e => withEvs [submitFailLog sel e] (submitLoop o rest)
        | .ok en =>
          let probe := submitProbeLog sel v en (o.innerText i)
          if v then
            match o.click i with
            | .error e => withEvs [probe, .click sel, submitFailLog sel e] (submitLoop o rest)
            | .ok _ =>
              (.ok true, [probe, .click sel, .log ("✅ 로그인 버튼 클릭 성공: " ++ sel)])
          else
            withEvs [probe] (submitLoop o rest)

/-! ## Outcome classification -/

def loginCookieNames : List String := ["NID_AUT", "NID_SES", "NID_JKL"]

def errorSelectors : List String :=
  [".error_msg", ".help_text", ".alert", ".err", "#err_common",
   ".login_error", "[class*=\x27error\x27]", "[class*=\x27err\x27]"]

/-- Lines 310–318: the elements of one error selector; an element whose
`inner_text` throws is skipped by the bare inner `except`; a non-blank
text is logged and sets `error_found`. -/
def probeElems (sel : String) : List (Except PyErr String) → List PEv × Bool
  | [] => ([], false)
  | .error _ :: rest => probeElems sel rest
  | .ok t :: rest =>
    let r := probeElems sel rest
    if pyStrip t ≠ "" then
      (.log ("페이지 오류 메시지 (" ++ sel ++ "): " ++ pyStrip t) :: r.1, true)
    else r

/-- Lines 309–318: the selector loop; a `query_selector_all` exception
aborts the whole probe `try` (logged at line 324), skipping the
remaining selectors.  Returns (events, error_found, aborted). -/
def probeLoop (o : Oracle) : List (Nat × String) → Bool → List PEv × Bool × Bool
  | [], found => ([], found, false)
  | (i, sel) :: rest, found =>
    match o.qsa i with
    | .error e => ([.log ("오류 메시지 확인 중 예외: " ++ pyStr e)], found, true)
    | .ok elems =>
      let pr := probeElems sel elems
      let rec_ := probeLoop o rest (found || pr.2)
      (pr.1 ++ rec_.1, rec_.2.1, rec_.2.2)

/-- Lines 287–324: the page-title and visible-error-text inspection.
Every exception inside is swallowed; the block contributes log lines
only and can influence nothing else. -/
def probeEvs (o : Oracle) : List PEv :=
  (match o.pageTitle with
   | .ok t => [PEv.log ("페이지 제목: " ++ t)]
   | .error _ => []) ++
  (match probeLoop o errorSelectors.enum false with
   | (evs, found, aborted) =>
     evs ++ (if aborted || found then [] else [PEv.log "명시적인 오류 메시지를 찾을 수 없음"]))

/-- Lines 330–366: the timeout-branch decision tree, a function of the
current URL and the context cookies only. -/
def urlDecision (url : String) (cookies : Except PyErr (List (String × String))) :
    ResP LoginResponse :=
  if pyIn "captcha" (pyLower url) || pyIn "verify" (pyLower url) then
    (.ok ⟨false, "캡차 또는 추가 인증이 필요합니다", none⟩, [])
  else if pyIn "nidlogin.login" url then
    (.ok ⟨false, "로그인에 실패했습니다. 아이디/비밀번호를 확인해주세요", none⟩, [])
  else if pyIn "nid.naver.com" url then
    (.ok ⟨false, "추가 인증이 필요합니다. 수동으로 인증을 완료해주세요", none⟩, [])
  else
    match cookies with
    | .error e => (.error e, [])
    | .ok cs =>
      let d := cookieDict cs
      if loginCookieNames.any (fun n => dictHasKey d n) then
        (.ok ⟨true, "로그인 성공 (현재 URL: " ++ url ++ ")", some d⟩, [])
      else
        (.ok ⟨false, "로그인 상태 불확실 (현재 URL: " ++ url ++ ")", none⟩, [])

/-- Lines 282–366: the handler entered when the post-submit wait times
out *or* the success branch itself throws: log the URL, inspect
title/error text (logs only), then decide from the URL and a (second)
cookie collection. -/
def classifyTimeout (o : Oracle) : ResP LoginResponse :=
  withEvs
    ([.log ("로그인 후 URL: " ++ o.currentUrl)] ++ probeEvs o ++
     [.log ("현재 페이지 상태 - URL: " ++ o.currentUrl)])
    (urlDecision o.currentUrl o.cookiesTimeout)

/-- Lines 265–366: wait for the canonical authenticated location; on
success collect cookies and return `Authenticated`.  The `except` at
line 282 catches both the wait's timeout and any exception raised by
the success branch itself (notably its `context.cookies()` call at
line 271) and re-enters the URL classification. -/
def classifyFlow (o : Oracle) : ResP LoginResponse :=
  if o.waitUrl then
    match o.cookiesOk with
    | .error _ => classifyTimeout o
    | .ok cs =>
      (.ok ⟨true, "로그인 성공", some (cookieDict cs)⟩, [.log "✅ 네이버 로그인 성공!"])
  else classifyTimeout o

/-- Lines 249–263 and onward: the fallback Enter submission and the
submit-control-not-found rejection, then classification. -/
def submitPhase (o : Oracle) : ResP LoginResponse :=
  rbind (submitLoop o loginButtonSelectors.enum) fun clicked =>
  if clicked then classifyFlow o
  else
    withEvs [.log "❌ 모든 로그인 버튼 셀렉터 실패"]
      (match o.pressEnter with
       | .ok _ =>
         withEvs [.pressSel "#pw" "Enter", .log "Enter 키로 로그인 시도"] (classifyFlow o)
       | .error e =>
         withEvs [.pressSel "#pw" "Enter", .log ("Enter 키 시도도 실패: " ++ pyStr e)]
           (Except.ok ⟨false, "로그인 버튼을 찾을 수 없습니다", none⟩, []))

/-- The whole page interaction after the context is created: navigate,
fill both fields, submit, classify.  The username appears only in its
typing loop and its echoed value log; the password appears only in its
typing loop. -/
def pageFlow (u p : String) (o : Oracle) : ResP LoginResponse :=
  rbind (preType o) fun _ =>
  rbind (typeLoop o.typeId 0 u.data) fun _ =>
  rbind (midFlow o) fun _ =>
  rbind (typeLoop o.typePw 0 p.data) fun _ =>
  rbind (postType o) fun _ =>
  submitPhase o

/-! ## `naver_login`: handler and `finally` -/

/-- The catch-all conversion of line 368–373. -/
def errResp (e : PyErr) : LoginResponse :=
  ⟨false, "오류 발생: " ++ pyStr e, none⟩

def errLogEv (e : PyErr) : Ev :=
  .act (.log ("로그인 처리 중 오류 발생: " ++ pyStr e))

/-- One guarded release step of the `finally` block: the release is
invoked and any exception it raises is swallowed by the bare
`except: pass`, so the trace records the invocation either way. -/
def guardedRel (r : Except PyErr Unit) (e : REv) : List Ev :=
  match r with
  | .ok _ => [Ev.rel e]
  | .error _ => [Ev.rel e]

/-- Lines 375–393: release the context (when it was created), then the
browser, then the driver (when `connect_to_browserless` returned),
each step independently guarded. -/
def finallyEvs (ctxAcq connected : Bool) (o : Oracle) : List Ev :=
  (if ctxAcq then guardedRel o.ctxCloseRes .ctxClose else []) ++
  (if connected then guardedRel o.browserCloseRes .browserClose else []) ++
  (if connected then guardedRel o.pwStopRes .pwStop else [])

/-- `naver_login(username, password)`: connect, create the context, run
the page flow; every raised exception is converted by the catch-all
handler into a failure `LoginResponse`; the `finally` block then
releases whatever was acquired.  The first component is the call's
result as seen by the caller (`.error` would mean an escaped
exception); the second is the full event trace. -/
def naverLoginRun (u p : String) (o : Oracle) :
    Except PyErr LoginResponse × List Ev :=
  match connectRun o with
  | (.error e, cevs) =>
    (.ok (errResp e), cevs ++ [errLogEv e] ++ finallyEvs false false o)
  | (.ok _, cevs) =>
    match o.newContext with
    | .error e =>
      (.ok (errResp e), cevs ++ [errLogEv e] ++ finallyEvs false true o)
    | .ok _ =>
      let r := pageFlow u p o
      let resp : LoginResponse :=
        match r.1 with
        | .ok lr => lr
        | .error e => errResp e
      let errEvs : List Ev :=
        match r.1 with
        | .ok _ => []
        | .error e => [errLogEv e]
      (.ok resp,
       cevs ++ [Ev.act .ctxOpen] ++ r.2.map Ev.act ++ errEvs ++ finallyEvs true true o)

/-! ## Helper predicates and lemmas -/

def isOkE {α : Type} : Except PyErr α → Bool
  | .ok _ => true
  | .error _ => false

/-- The endpoint passed Python's `if not browserless_url` check. -/
def envValid (o : Oracle) : Bool :=
  match o.env with
  | some u => !(u == "")
  | none => false

/-- The playwright driver was started. -/
def pwStarted (o : Oracle) : Bool := envValid o && isOkE o.pwStart

/-- Some connection candidate's `connect_over_cdp` succeeded. -/
def anyCandOk (o : Oracle) : Bool :=
  match o.env with
  | none => false
  | some url => (candidateList url).enum.any fun pr => isOkE (o.connectAttempt pr.1)

/-- `connect_to_browserless` returned `(playwright, browser)`. -/
def connSucceeded (o : Oracle) : Bool := pwStarted o && anyCandOk o

/-- `browser.new_context(...)` succeeded, so `context` is in scope. -/
def ctxAcquired (o : Oracle) : Bool := connSucceeded o && isOkE o.newContext

def respOf : Except PyErr LoginResponse → LoginResponse
  | .ok lr => lr
  | .error e => errResp e

def notSubmitP : PEv → Bool
  | .click _ => false
  | .pressSel _ _ => false
  | _ => true

def notSubmitE : Ev → Bool
  | .act p => notSubmitP p
  | .rel _ => true

theorem filter_isRel_map_act (l : List PEv) : (l.map Ev.act).filter isRel = [] := by
  induction l with
  | nil => rfl
  | cons a l ih => simp [isRel, ih]

theorem logsP_append (a b : List PEv) : logsP (a ++ b) = logsP a ++ logsP b := by
  simp [logsP]

theorem logsOf_append (a b : List Ev) : logsOf (a ++ b) = logsOf a ++ logsOf b := by
  simp [logsOf]

theorem logsOf_map_act (l : List PEv) : logsOf (l.map Ev.act) = logsP l := by
  induction l with
  | nil => rfl
  | cons a l ih =>
    cases a <;> simp [logsOf, logsP] <;> simp [logsOf, logsP] at ih <;> exact ih

/-! ### `connectLoop` lemmas -/

theorem connectLoop_fst_ok_iff (o : Oracle) (l : List (Nat × String)) (last : Option PyErr) :
    ((connectLoop o l last).1 = .ok ()) ↔
      (l.any fun pr => isOkE (o.connectAttempt pr.1)) = true := by
  induction l generalizing last with
  | nil => simp [connectLoop]
  | cons pr rest ih =>
    obtain ⟨i, url⟩ := pr
    cases h : o.connectAttempt i with
    | error e =>
      simp [connectLoop, rbind, rlog, h, isOkE, ih]
    | ok a =>
      cases hn : o.livenessNewPage i <;> [skip; cases hp : o.livenessPageClose i] <;>
        simp [connectLoop, rbind, rlog, withEvs, h, hn, isOkE] <;> simp [hp]

/-- The error value raised at loop exhaustion: `last_error` threaded
through all candidates. -/
def lastErrOf (o : Oracle) : List (Nat × String) → Option PyErr → PyErr
  | [], last =>
    match last with
    | some e => e
    | none => .exn "모든 연결 시도 실패"
  | pr :: rest, last =>
    lastErrOf o rest
      (match o.connectAttempt pr.1 with
       | .error e => some e
       | .ok _ => last)

theorem connectLoop_allFail (o : Oracle) (l : List (Nat × String)) (last : Option PyErr)
    (h : ∀ pr ∈ l, isOkE (o.connectAttempt pr.1) = false) :
    (connectLoop o l last).1 = .error (lastErrOf o l last) := by
  induction l generalizing last with
  | nil => simp [connectLoop, lastErrOf]
  | cons pr rest ih =>
    obtain ⟨i, url⟩ := pr
    have hi := h (i, url) (by simp)
    cases hc : o.connectAttempt i with
    | error e =>
      have := ih (some e) (fun x hx => h x (by simp [hx]))
      simp [connectLoop, rbind, rlog, hc, lastErrOf, this]
    | ok a => simp [isOkE, hc] at hi

theorem lastErrOf_spec (o : Oracle) (i : Nat) (s : String) (e : PyErr)
    (he : o.connectAttempt i = .error e) :
    ∀ (l : List (Nat × String)), l.getLast? = some (i, s) →
      ∀ last, lastErrOf o l last = e := by
  intro l
  induction l with
  | nil => intro hl; simp at hl
  | cons pr rest ih =>
    intro hl last
    cases rest with
    | nil =>
      simp [List.getLast?] at hl
      simp [lastErrOf, hl, he]
    | cons q rest2 =>
      have h2 : (q :: rest2).getLast? = some (i, s) := by
        simpa [List.getLast?_cons_cons] using hl
      simp only [lastErrOf]
      exact ih h2 _

theorem connectLoop_noSubmit (o : Oracle) (l : List (Nat × String)) (last : Option PyErr) :
    ((connectLoop o l last).2.all notSubmitP) = true := by
  induction l generalizing last with
  | nil => simp [connectLoop]
  | cons pr rest ih =>
    obtain ⟨i, url⟩ := pr
    cases h : o.connectAttempt i with
    | error e =>
      simp [connectLoop, rbind, rlog, h, notSubmitP, ih]
    | ok a =>
      cases hn : o.livenessNewPage i <;> [skip; cases hp : o.livenessPageClose i] <;>
        simp [connectLoop, rbind, rlog, withEvs, h, hn, notSubmitP] <;> simp [hp, notSubmitP]

/-! ### `connectRun` lemmas -/

theorem connectRun_started (o : Oracle) (url : String)
    (henv : o.env = some url) (hne : (url == "") = false) (hs : o.pwStart = .ok ()) :
    connectRun o = connectBody o url := by
  simp [connectRun, henv, hne, hs]

theorem connSucceeded_started (o : Oracle) (url : String)
    (henv : o.env = some url) (hne : (url == "") = false) (hs : o.pwStart = .ok ()) :
    connSucceeded o =
      ((candidateList url).enum.any fun pr => isOkE (o.connectAttempt pr.1)) := by
  simp [connSucceeded, pwStarted, envValid, anyCandOk, henv, hne, hs, isOkE]

theorem connectRun_fst_ok_iff (o : Oracle) :
    ((connectRun o).1 = .ok ()) ↔ connSucceeded o = true := by
  cases henv : o.env with
  | none => simp [connectRun, connSucceeded, pwStarted, envValid, henv]
  | some url =>
    cases hne : (url == "") with
    | true => simp [connectRun, connSucceeded, pwStarted, envValid, henv, hne]
    | false =>
      cases hs : o.pwStart with
      | error e =>
        simp [connectRun, connSucceeded, pwStarted, envValid, henv, hne, hs, isOkE]
      | ok a =>
        obtain ⟨⟩ := a
        rw [connectRun_started o url henv hne hs,
            connSucceeded_started o url henv hne hs]
        simp only [connectBody]
        have hiff := connectLoop_fst_ok_iff o (candidateList url).enum none
        set lr := connectLoop o (candidateList url).enum none with hlr
        clear_value lr
        obtain ⟨lr1, levs⟩ := lr
        simp only at hiff
        cases lr1 with
        | ok a2 =>
          obtain ⟨⟩ := a2
          simp only [connectHandler]
          simpa using hiff
        | error e =>
          simp only [connectHandler]
          constructor
          · intro h
            cases hstop : o.pwStopInConnect <;> rw [hstop] at h <;> simp at h
          · intro h
            exact absurd (hiff.2 h) (by simp)

theorem connectRun_relFilter (o : Oracle) :
    (connectRun o).2.filter isRel =
      (if pwStarted o && !connSucceeded o then [Ev.rel .pwStop] else []) := by
  cases henv : o.env with
  | none => simp [connectRun, pwStarted, envValid, henv]
  | some url =>
    cases hne : (url == "") with
    | true => simp [connectRun, pwStarted, envValid, henv, hne]
    | false =>
      cases hs : o.pwStart with
      | error e =>
        simp [connectRun, pwStarted, envValid, henv, hne, hs, isOkE]
      | ok a =>
        obtain ⟨⟩ := a
        rw [connectRun_started o url henv hne hs]
        have hps : pwStarted o = true := by
          simp [pwStarted, envValid, henv, hne, hs, isOkE]
        have hcs := connSucceeded_started o url henv hne hs
        simp only [connectBody]
        have hiff := connectLoop_fst_ok_iff o (candidateList url).enum none
        set lr := connectLoop o (candidateList url).enum none with hlr
        clear_value lr
        obtain ⟨lr1, levs⟩ := lr
        simp only at hiff
        cases lr1 with
        | ok a2 =>
          obtain ⟨⟩ := a2
          have hany : ((candidateList url).enum.any fun pr => isOkE (o.connectAttempt pr.1)) = true := by
            simpa using hiff
          simp [connectHandler, hps, hcs, hany, filter_isRel_map_act, isRel]
        | error e =>
          have hany : ((candidateList url).enum.any fun pr => isOkE (o.connectAttempt pr.1)) = false := by
            cases h : ((candidateList url).enum.any fun pr => isOkE (o.connectAttempt pr.1)) with
            | false => rfl
            | true => exact absurd (hiff.2 h) (by simp)
          have hfl : (levs.map Ev.act).filter isRel = [] := filter_isRel_map_act levs
          simp [connectHandler, hps, hcs, hany, isRel, hfl]

theorem connectRun_noSubmit (o : Oracle) :
    ((connectRun o).2.all notSubmitE) = true := by
  cases henv : o.env with
  | none => simp [connectRun, henv]
  | some url =>
    cases hne : (url == "") with
    | true => simp [connectRun, henv, hne]
    | false =>
      cases hs : o.pwStart with
      | error e => simp [connectRun, henv, hne, hs]
      | ok a =>
        obtain ⟨⟩ := a
        rw [connectRun_started o url henv hne hs]
        simp only [connectBody]
        have hns := connectLoop_noSubmit o (candidateList url).enum none
        set lr := connectLoop o (candidateList url).enum none with hlr
        clear_value lr
        obtain ⟨lr1, levs⟩ := lr
        simp only at hns
        cases lr1 with
        | ok a2 =>
          simp only [connectHandler]
          simp [notSubmitE, notSubmitP, List.all_map, Function.comp]
          intro x hx
          simpa [notSubmitP] using List.all_eq_true.1 hns x hx
        | error e =>
          simp only [connectHandler]
          simp [notSubmitE, notSubmitP, List.all_map, Function.comp]
          intro x hx
          simpa [notSubmitP] using List.all_eq_true.1 hns x hx

/-! ### typing-loop lemmas -/

theorem typeLoop_ok (f : Nat → Except PyErr Unit) (h : ∀ j, f j = .ok ()) :
    ∀ (cs : List Char) (i : Nat), typeLoop f i cs = (.ok (), cs.map PEv.typeChar) := by
  intro cs
  induction cs with
  | nil => intro i; rfl
  | cons c rest ih =>
    intro i
    simp [typeLoop, h i, withEvs, ih (i + 1)]

theorem typeLoop_fst_len (f : Nat → Except PyErr Unit) :
    ∀ (cs ds : List Char) (i : Nat), cs.length = ds.length →
      (typeLoop f i cs).1 = (typeLoop f i ds).1 := by
  intro cs
  induction cs with
  | nil =>
    intro ds i h
    cases ds with
    | nil => rfl
    | cons d ds => simp at h
  | cons c rest ih =>
    intro ds i h
    cases ds with
    | nil => simp at h
    | cons d ds =>
      simp at h
      cases hf : f i with
      | error e => simp [typeLoop, hf]
      | ok a => simp [typeLoop, hf, withEvs, ih ds (i + 1) h]

theorem typeLoop_logs (f : Nat → Except PyErr Unit) :
    ∀ (cs : List Char) (i : Nat), logsP (typeLoop f i cs).2 = [] := by
  intro cs
  induction cs with
  | nil => intro i; rfl
  | cons c rest ih =>
    intro i
    cases hf : f i with
    | error e => simp [typeLoop, hf, logsP]
    | ok a =>
      simp only [typeLoop, hf, withEvs]
      rw [logsP_append, ih (i + 1)]
      simp [logsP]

/-! ### classification helpers -/

/-- The first component of `classifyFlow` ignores the title and
error-text probes: they contribute log events only. -/
theorem classify_probe_fst (o : Oracle) (t : Except PyErr String)
    (q : Nat → Except PyErr (List (Except PyErr String))) :
    (classifyFlow { o with pageTitle := t, qsa := q }).1 = (classifyFlow o).1 := by
  unfold classifyFlow
  by_cases hw : o.waitUrl = true
  · cases hck : o.cookiesOk with
    | error e => simp [hw, hck, classifyTimeout, withEvs]
    | ok cs => simp [hw, hck]
  · simp only [Bool.not_eq_true] at hw
    simp [hw, classifyTimeout, withEvs]

theorem cookieDict_ne_nil (cs : List (String × String)) (h : cs ≠ []) :
    cookieDict cs ≠ [] := by
  have key : ∀ (l : List (String × String)) (d : List (String × String)), d ≠ [] →
      l.foldl (fun d c => dictInsert c.1 c.2 d) d ≠ [] := by
    intro l
    induction l with
    | nil => intro d hd; simpa using hd
    | cons c rest ih =>
      intro d hd
      apply ih
      unfold dictInsert
      by_cases hk : d.any (fun p => p.1 == c.1) = true
      · simp only [hk, if_true, ne_eq, List.map_eq_nil_iff]
        exact hd
      · simp [hk]
  cases cs with
  | nil => exact absurd rfl h
  | cons c rest =>
    unfold cookieDict
    simp only [List.foldl_cons]
    apply key
    simp [dictInsert]

/-! ### composition lemmas -/

/-- When everything up to the submit phase succeeds, the attempt's
result is the (handler-wrapped) result of submit + classification. -/
theorem run_to_submit (u p : String) (o : Oracle)
    (hc : (connectRun o).1 = .ok ())
    (hctx : o.newContext = .ok ())
    (h1 : (preType o).1 = .ok ())
    (h2 : (typeLoop o.typeId 0 u.data).1 = .ok ())
    (h3 : (midFlow o).1 = .ok ())
    (h4 : (typeLoop o.typePw 0 p.data).1 = .ok ())
    (h5 : (postType o).1 = .ok ()) :
    (naverLoginRun u p o).1 = .ok (respOf (submitPhase o).1) := by
  have hpf : (pageFlow u p o).1 = (submitPhase o).1 := by
    unfold pageFlow
    rw [rbind_fst_ok _ h1, rbind_fst_ok _ h2, rbind_fst_ok _ h3,
        rbind_fst_ok _ h4, rbind_fst_ok _ h5]
  rcases hcr : connectRun o with ⟨cr, cevs⟩
  rw [hcr] at hc
  simp only at hc
  subst hc
  simp only [naverLoginRun, hcr, hctx]
  rw [hpf]
  cases hsp : (submitPhase o).1 <;> simp [respOf, hsp]

/-- Any raised exception inside the page flow is converted by the
handler: the attempt's result is `.ok (errResp e)`. -/
theorem run_pageFlow_error (u p : String) (o : Oracle) (e : PyErr)
    (hc : (connectRun o).1 = .ok ())
    (hctx : o.newContext = .ok ())
    (hpf : (pageFlow u p o).1 = .error e) :
    (naverLoginRun u p o).1 = .ok (errResp e) := by
  rcases hcr : connectRun o with ⟨cr, cevs⟩
  rw [hcr] at hc
  simp only at hc
  subst hc
  simp only [naverLoginRun, hcr, hctx]
  rw [hpf]

/-! ### submit-loop characterization -/

/-- Candidate `i` produces the click that ends the loop: the element
query succeeded and found it, the visibility probe succeeded with
`True`, the enabled probe succeeded (with either value — disabled does
not disqualify), and the click call itself did not throw. -/
def candClicks (o : Oracle) (i : Nat) : Bool :=
  match o.query i, o.isVisible i, o.isEnabled i, o.click i with
  | .ok true, .ok true, .ok _, .ok _ => true
  | _, _, _, _ => false

theorem candClicks_iff (o : Oracle) (i : Nat) :
    candClicks o i = true ↔
      (o.query i = .ok true ∧ o.isVisible i = .ok true ∧
       (∃ b, o.isEnabled i = .ok b) ∧ o.click i = .ok ()) := by
  unfold candClicks
  cases hq : o.query i with
  | error e => simp [hq]
  | ok qb =>
    cases hv : o.isVisible i with
    | error e => cases qb <;> simp [hv]
    | ok vb =>
      cases hen : o.isEnabled i with
      | error e => cases qb <;> cases vb <;> simp [hen]
      | ok en =>
        cases hcl : o.click i with
        | error e => cases qb <;> cases vb <;> simp [hcl]
        | ok a =>
          obtain ⟨⟩ := a
          cases qb <;> cases vb <;> simp [hq, hv, hen, hcl]

theorem submitLoop_fst (o : Oracle) (l : List (Nat × String)) :
    (submitLoop o l).1 = .ok (l.any fun pr => candClicks o pr.1) := by
  induction l with
  | nil => rfl
  | cons pr rest ih =>
    obtain ⟨i, sel⟩ := pr
    cases hq : o.query i with
    | error e => simp [submitLoop, hq, withEvs, ih, candClicks]
    | ok qb =>
      cases qb with
      | false => simp [submitLoop, hq, ih, candClicks]
      | true =>
        cases hv : o.isVisible i with
        | error e => simp [submitLoop, hq, hv, withEvs, ih, candClicks]
        | ok vb =>
          cases hen : o.isEnabled i with
          | error e => simp [submitLoop, hq, hv, hen, withEvs, ih, candClicks]
          | ok en =>
            cases vb with
            | false => simp [submitLoop, hq, hv, hen, withEvs, ih, candClicks]
            | true =>
              cases hcl : o.click i with
              | error e => simp [submitLoop, hq, hv, hen, hcl, withEvs, ih, candClicks]
              | ok a => simp [submitLoop, hq, hv, hen, hcl, withEvs, candClicks]

/-- When some candidate clicks, the loop's trace ends with the success
log of the *first* such candidate (the loop breaks there). -/
theorem submitLoop_getLast (o : Oracle) (l : List (Nat × String)) (pr : Nat × String)
    (h : l.find? (fun x => candClicks o x.1) = some pr) :
    (submitLoop o l).2.getLast? =
      some (PEv.log ("✅ 로그인 버튼 클릭 성공: " ++ pr.2)) := by
  induction l with
  | nil => simp at h
  | cons q rest ih =>
    obtain ⟨i, sel⟩ := q
    by_cases hcc : candClicks o i = true
    · have hpr : pr = (i, sel) := by
        rw [List.find?_cons_of_pos _ (by simpa using hcc)] at h
        exact (Option.some_inj.mp h).symm
      subst hpr
      rcases (candClicks_iff o i).1 hcc with ⟨hq, hv, ⟨b, hen⟩, hcl⟩
      simp [submitLoop, hq, hv, hen, hcl]
    · have hfind : rest.find? (fun x => candClicks o x.1) = some pr := by
        rwa [List.find?_cons_of_neg _ (by simpa using hcc)] at h
      have hrest := ih hfind
      have hne : (submitLoop o rest).2 ≠ [] := by
        intro hnil
        rw [hnil] at hrest
        simp at hrest
      cases hq : o.query i with
      | error e =>
        simp only [submitLoop, hq, withEvs]
        rw [List.getLast?_append_of_ne_nil _ hne]
        exact hrest
      | ok qb =>
        cases qb with
        | false => simpa [submitLoop, hq] using hrest
        | true =>
          cases hv : o.isVisible i with
          | error e =>
            simp only [submitLoop, hq, hv, withEvs]
            rw [List.getLast?_append_of_ne_nil _ hne]
            exact hrest
          | ok vb =>
            cases hen : o.isEnabled i with
            | error e =>
              simp only [submitLoop, hq, hv, hen, withEvs]
              rw [List.getLast?_append_of_ne_nil _ hne]
              exact hrest
            | ok en =>
              cases vb with
              | false =>
                simp only [submitLoop, hq, hv, hen, withEvs, Bool.false_eq_true, if_false]
                rw [List.getLast?_append_of_ne_nil _ hne]
                exact hrest
              | true =>
                cases hcl : o.click i with
                | error e =>
                  simp only [submitLoop, hq, hv, hen, hcl, withEvs, if_true]
                  rw [List.getLast?_append_of_ne_nil _ hne]
                  exact hrest
                | ok a =>
                  exact absurd ((candClicks_iff o i).2
                    ⟨hq, hv, ⟨en, hen⟩, by cases a; exact hcl⟩) hcc

/-! ### submit-phase lemmas -/

theorem submitPhase_clicked (o : Oracle)
    (h : (submitLoop o loginButtonSelectors.enum).1 = .ok true) :
    (submitPhase o).1 = (classifyFlow o).1 := by
  unfold submitPhase
  rw [rbind_fst_ok _ h]
  simp

theorem submitPhase_fallback (o : Oracle)
    (h : (submitLoop o loginButtonSelectors.enum).1 = .ok false)
    (he : o.pressEnter = .ok ()) :
    (submitPhase o).1 = (classifyFlow o).1 := by
  unfold submitPhase
  rw [rbind_fst_ok _ h]
  simp [withEvs, he]

theorem submitPhase_notFound (o : Oracle) (e : PyErr)
    (h : (submitLoop o loginButtonSelectors.enum).1 = .ok false)
    (he : o.pressEnter = .error e) :
    (submitPhase o).1 = .ok ⟨false, "로그인 버튼을 찾을 수 없습니다", none⟩ := by
  unfold submitPhase
  rw [rbind_fst_ok _ h]
  simp [withEvs, he]

/-! ## Canonical oracles for concrete executions -/

/-- An execution in which every external call succeeds: a valid
endpoint, first connection candidate accepted, the login form fully
present, the first submit candidate clicked, and the canonical
authenticated redirect observed. -/
def okO : Oracle where
  env := some "wss://host/playwright"
  pwStart := .ok ()
  connectAttempt := fun _ => .ok ()
  livenessNewPage := fun _ => .ok ()
  livenessPageClose := fun _ => .ok ()
  pwStopInConnect := .ok ()
  newContext := .ok ()
  newPage := .ok ()
  gotoMain := .ok ()
  gotoLogin := .ok ()
  waitForm := true
  waitId := true
  mouseMove1 := .ok ()
  mouseMove2 := .ok ()
  focusId := true
  pressCtrlA1 := .ok ()
  pressDel1 := .ok ()
  typeId := fun _ => .ok ()
  inputValueId := .ok "user1"
  mouseMove3 := .ok ()
  pressTab := .ok ()
  focusPw := true
  pressCtrlA2 := .ok ()
  pressDel2 := .ok ()
  typePw := fun _ => .ok ()
  inputValuePw := .ok "pass1"
  query := fun _ => .ok true
  isVisible := fun _ => .ok true
  isEnabled := fun _ => .ok true
  innerText := fun _ => .ok "다음"
  click := fun _ => .ok ()
  pressEnter := .ok ()
  waitUrl := true
  cookiesOk := .ok [("NID_AUT", "a"), ("NID_SES", "s")]
  currentUrl := "https://www.naver.com/"
  pageTitle := .ok "NAVER"
  qsa := fun _ => .ok []
  cookiesTimeout := .ok []
  ctxCloseRes := .ok ()
  browserCloseRes := .ok ()
  pwStopRes := .ok ()

/-! ## Claim theorems -/

/-- The challenge/verification URL check of line 330. -/
def challengeUrl (url : String) : Bool :=
  pyIn "captcha" (pyLower url) || pyIn "verify" (pyLower url)

/-- C2: in the classifier's timeout branch the decision order is:
challenge markers in the lowered URL first (regardless of cookie
contents — the oracle's cookie results are unconstrained), then the
login-page location ("nidlogin.login"), then the authentication domain
("nid.naver.com"); otherwise the collected cookies decide between
`Authenticated` (some marker cookie name present) and `Indeterminate`.
First match wins. -/
theorem C2_timeout_decision_order (o : Oracle) (cs : List (String × String))
    (hw : o.waitUrl = false) :
    (challengeUrl o.currentUrl = true →
      (classifyFlow o).1 = .ok ⟨false, "캡차 또는 추가 인증이 필요합니다", none⟩) ∧
    (challengeUrl o.currentUrl = false → pyIn "nidlogin.login" o.currentUrl = true →
      (classifyFlow o).1 =
        .ok ⟨false, "로그인에 실패했습니다. 아이디/비밀번호를 확인해주세요", none⟩) ∧
    (challengeUrl o.currentUrl = false → pyIn "nidlogin.login" o.currentUrl = false →
      pyIn "nid.naver.com" o.currentUrl = true →
      (classifyFlow o).1 =
        .ok ⟨false, "추가 인증이 필요합니다. 수동으로 인증을 완료해주세요", none⟩) ∧
    (challengeUrl o.currentUrl = false → pyIn "nidlogin.login" o.currentUrl = false →
      pyIn "nid.naver.com" o.currentUrl = false → o.cookiesTimeout = .ok cs →
      (classifyFlow o).1 =
        .ok (if loginCookieNames.any (fun n => dictHasKey (cookieDict cs) n) then
               ⟨true, "로그인 성공 (현재 URL: " ++ o.currentUrl ++ ")",
                some (cookieDict cs)⟩
             else
               ⟨false, "로그인 상태 불확실 (현재 URL: " ++ o.currentUrl ++ ")", none⟩)) := by
  unfold challengeUrl
  refine ⟨fun h1 => ?_, fun h1 h2 => ?_, fun h1 h2 h3 => ?_, fun h1 h2 h3 h4 => ?_⟩
  · simp [classifyFlow, classifyTimeout, hw, withEvs, urlDecision, h1]
  · simp [classifyFlow, classifyTimeout, hw, withEvs, urlDecision, h1, h2]
  · simp [classifyFlow, classifyTimeout, hw, withEvs, urlDecision, h1, h2, h3]
  · by_cases hl : loginCookieNames.any (fun n => dictHasKey (cookieDict cs) n) = true
    · simp [classifyFlow, classifyTimeout, hw, withEvs, urlDecision, h1, h2, h3, h4, hl]
    · simp only [Bool.not_eq_true] at hl
      simp [classifyFlow, classifyTimeout, hw, withEvs, urlDecision, h1, h2, h3, h4, hl]

/-- A timeout-branch execution whose URL carries a challenge marker
and whose context still holds a marker cookie. -/
def oC2 : Oracle :=
  { okO with waitUrl := false,
             currentUrl := "https://nid.naver.com/login/Captcha",
             cookiesTimeout := .ok [("NID_AUT", "a")] }

theorem C2_timeout_decision_order_witness :
    challengeUrl "https://nid.naver.com/login/Captcha" = true ∧
    (classifyFlow oC2).1 = .ok ⟨false, "캡차 또는 추가 인증이 필요합니다", none⟩ :=
  ⟨by decide, (C2_timeout_decision_order oC2 [] (by decide)).1 (by decide)⟩

/-- C10: the classification outcome (variant and message) is a function
of the post-submit URL and the context cookies only: two executions
that differ arbitrarily in the page title and in the visible error
text (including ones where those probes throw) produce the same
result; the probes influence the log events only. -/
theorem C10_probes_influence_logs_only (o : Oracle)
    (t1 t2 : Except PyErr String)
    (q1 q2 : Nat → Except PyErr (List (Except PyErr String))) :
    (classifyFlow { o with pageTitle := t1, qsa := q1 }).1 =
      (classifyFlow { o with pageTitle := t2, qsa := q2 }).1 :=
  (classify_probe_fst o t1 q1).trans (classify_probe_fst o t2 q2).symm

theorem guardedRel_eq (r : Except PyErr Unit) (e : REv) : guardedRel r e = [Ev.rel e] := by
  cases r <;> rfl

/-- C7: on every exit path the trace's release events are exactly one
release per acquired resource, in strict reverse order of acquisition
(context, then browser, then driver); the right-hand side does not
depend on the `finally` oracle fields `ctxCloseRes`/`browserCloseRes`/
`pwStopRes`, so a throwing release never suppresses the following
ones. -/
theorem C7_release_discipline (u p : String) (o : Oracle) :
    (naverLoginRun u p o).2.filter isRel =
      (if ctxAcquired o then [Ev.rel .ctxClose] else []) ++
      (if connSucceeded o then [Ev.rel .browserClose] else []) ++
      (if pwStarted o then [Ev.rel .pwStop] else []) := by
  have hrel := connectRun_relFilter o
  have hiff := connectRun_fst_ok_iff o
  rcases hcr : connectRun o with ⟨cr, cevs⟩
  rw [hcr] at hrel hiff
  simp only at hrel hiff
  cases cr with
  | error e =>
    have hconn : connSucceeded o = false := by
      cases h : connSucceeded o with
      | false => rfl
      | true => exact absurd (hiff.2 h) (by simp)
    have hctxa : ctxAcquired o = false := by
      simp [ctxAcquired, hconn]
    simp only [naverLoginRun, hcr]
    rw [List.filter_append, List.filter_append, hrel]
    simp [finallyEvs, errLogEv, isRel, hconn, hctxa]
  | ok a =>
    obtain ⟨⟩ := a
    have hconn : connSucceeded o = true := hiff.1 rfl
    have hps : pwStarted o = true := by
      have h2 := hconn
      unfold connSucceeded at h2
      simp only [Bool.and_eq_true] at h2
      exact h2.1
    have hcevs : cevs.filter isRel = [] := by
      rw [hrel, hconn]
      simp
    cases hctx : o.newContext with
    | error e =>
      have hctxa : ctxAcquired o = false := by
        simp [ctxAcquired, hconn, isOkE, hctx]
      simp only [naverLoginRun, hcr, hctx]
      rw [List.filter_append, List.filter_append, hcevs]
      simp [finallyEvs, guardedRel_eq, errLogEv, isRel, hconn, hctxa, hps]
    | ok a2 =>
      obtain ⟨⟩ := a2
      have hctxa : ctxAcquired o = true := by
        simp [ctxAcquired, hconn, isOkE, hctx]
      simp only [naverLoginRun, hcr, hctx]
      rw [List.filter_append, List.filter_append, List.filter_append, List.filter_append,
          hcevs, filter_isRel_map_act]
      have herr : (match (pageFlow u p o).1 with
          | .ok _ => ([] : List Ev)
          | .error e => [errLogEv e]).filter isRel = [] := by
        cases (pageFlow u p o).1 <;> simp [errLogEv, isRel]
      rw [herr]
      simp [finallyEvs, guardedRel_eq, isRel, hconn, hctxa, hps]

/-- The configuration-error execution: `BROWSERLESS_WS_URL` unset. -/
def oC1 : Oracle := { okO with env := none }

/-- A non-configuration failure for comparison: the driver start throws. -/
def oC1b : Oracle := { okO with pwStart := .error (.exn "boom") }

/-- C1 (amended): `naver_login` never raises for *any* failure,
including the missing/empty-endpoint configuration error.  The
configuration `ValueError` is raised by `connect_to_browserless`
before any session resource is opened (on that input the whole trace
is the handler's single log line: no driver start, no connection
attempt, no context), but `naver_login`'s catch-all converts it, like
every other failure, into a returned failure outcome — it is not
surfaced to the caller as a distinct fatal category. -/
theorem C1_never_raises (u p : String) (o : Oracle) :
    (∃ r, (naverLoginRun u p o).1 = .ok r) ∧
    (o.env = none →
      naverLoginRun u p o =
        (.ok (errResp (.valueError envMsg)), [errLogEv (.valueError envMsg)])) ∧
    (o.env = some "" →
      naverLoginRun u p o =
        (.ok (errResp (.valueError envMsg)), [errLogEv (.valueError envMsg)])) := by
  refine ⟨?_, fun henv => ?_, fun henv => ?_⟩
  · rcases hcr : connectRun o with ⟨cr, cevs⟩
    cases cr with
    | error e =>
      refine ⟨errResp e, ?_⟩
      simp only [naverLoginRun, hcr]
    | ok a =>
      cases hctx : o.newContext with
      | error e =>
        refine ⟨errResp e, ?_⟩
        simp only [naverLoginRun, hcr, hctx]
      | ok a2 =>
        refine ⟨match (pageFlow u p o).1 with
                | .ok lr => lr
                | .error e => errResp e, ?_⟩
        simp only [naverLoginRun, hcr, hctx]
  · have hcr : connectRun o = (.error (.valueError envMsg), []) := by
      simp [connectRun, henv]
    simp [naverLoginRun, hcr, finallyEvs]
  · have hcr : connectRun o = (.error (.valueError envMsg), []) := by
      simp [connectRun, henv]
    simp [naverLoginRun, hcr, finallyEvs]

theorem C1_never_raises_witness :
    naverLoginRun "u" "p" oC1 =
      (.ok (errResp (.valueError envMsg)), [errLogEv (.valueError envMsg)]) :=
  (C1_never_raises "u" "p" oC1).2.1 rfl

/-- Counterexample to C1 as stated: on the missing-endpoint input the
attempt does *not* surface a distinct fatal category to its caller —
it returns (`.ok`, not `.error`) the same generically shaped
"오류 발생: …" failure outcome that any other internal failure (here a
driver-start error) produces. -/
theorem C1_config_error_not_distinct_cex :
    (naverLoginRun "u" "p" oC1).1 =
      .ok ⟨false, "오류 발생: " ++ envMsg, none⟩ ∧
    (naverLoginRun "u" "p" oC1b).1 =
      .ok ⟨false, "오류 발생: " ++ "boom", none⟩ := by
  constructor <;> decide

/-- C3 (amended): if every connection candidate fails, the error that
`connect_to_browserless` raises is the last candidate's underlying
error itself (re-raised as-is, not wrapped), and the playwright driver
is stopped (the only release event of the trace is its stop, emitted
before the function returns the raised error). The amended claim keeps
the release-before-raise part and drops only the `ConnectionError`
wrapping.  Hypothesis `hstop` reflects that the handler's own
`playwright.stop()` did not throw (it is unguarded in the source). -/
theorem C3_total_failure_raises_last_error (o : Oracle) (url : String) (elast : PyErr)
    (iL : Nat) (sL : String)
    (henv : o.env = some url) (hne : (url == "") = false) (hs : o.pwStart = .ok ())
    (hall : ∀ pr ∈ (candidateList url).enum, isOkE (o.connectAttempt pr.1) = false)
    (hlast : (candidateList url).enum.getLast? = some (iL, sL))
    (he : o.connectAttempt iL = .error elast)
    (hstop : o.pwStopInConnect = .ok ()) :
    (connectRun o).1 = .error elast ∧
    (connectRun o).2.filter isRel = [Ev.rel .pwStop] := by
  rw [connectRun_started o url henv hne hs]
  have hloop := connectLoop_allFail o (candidateList url).enum none hall
  have hlerr : lastErrOf o (candidateList url).enum none = elast :=
    lastErrOf_spec o iL sL elast he _ hlast none
  rw [hlerr] at hloop
  simp only [connectBody]
  set lr := connectLoop o (candidateList url).enum none with hlr
  clear_value lr
  obtain ⟨lr1, levs⟩ := lr
  simp only at hloop
  subst hloop
  simp only [connectHandler, hstop]
  refine ⟨by simp, ?_⟩
  simp [isRel, List.filter_append, filter_isRel_map_act]

/-- Every connection candidate fails; the last candidate (index 3)
fails with the raw error `exn "connect fail 3"`. -/
def oC3 : Oracle :=
  { okO with connectAttempt := fun i => .error (.exn ("connect fail " ++ toString i)) }

theorem C3_total_failure_witness :
    (connectRun oC3).1 = .error (.exn "connect fail 3") ∧
    (connectRun oC3).2.filter isRel = [Ev.rel .pwStop] :=
  C3_total_failure_raises_last_error oC3 "wss://host/playwright"
    (.exn "connect fail 3") 3 "wss://host/playwright"
    rfl (by decide) rfl (by decide) (by decide) rfl rfl

/-- Counterexample to C3 as stated: the raised error is the raw last
candidate error — it is not a `ConnectionError` wrapper. -/
theorem C3_no_connectionError_wrap_cex :
    (connectRun oC3).1 = .error (.exn "connect fail 3") ∧
    isConnErr (.exn "connect fail 3") = false := by
  constructor <;> decide

/-- C4 (amended): when the attempt reaches the post-submit wait and
the canonical authenticated location is reached before the timeout,
the outcome is `Authenticated` (`success = True`, "로그인 성공") and
its cookie mapping is exactly the context's cookies keyed by name —
non-empty whenever the context holds at least one cookie (the source
never checks non-emptiness itself: an empty context yields an empty
mapping). -/
theorem C4_success_redirect (u p : String) (o : Oracle) (cs : List (String × String))
    (hc : (connectRun o).1 = .ok ()) (hctx : o.newContext = .ok ())
    (h1 : (preType o).1 = .ok ()) (h2 : (typeLoop o.typeId 0 u.data).1 = .ok ())
    (h3 : (midFlow o).1 = .ok ()) (h4 : (typeLoop o.typePw 0 p.data).1 = .ok ())
    (h5 : (postType o).1 = .ok ())
    (hclick : (submitLoop o loginButtonSelectors.enum).1 = .ok true)
    (hw : o.waitUrl = true) (hck : o.cookiesOk = .ok cs) :
    (naverLoginRun u p o).1 = .ok ⟨true, "로그인 성공", some (cookieDict cs)⟩ ∧
    (cs ≠ [] → cookieDict cs ≠ []) := by
  constructor
  · rw [run_to_submit u p o hc hctx h1 h2 h3 h4 h5,
        submitPhase_clicked o hclick]
    have hcf : (classifyFlow o).1 = .ok ⟨true, "로그인 성공", some (cookieDict cs)⟩ := by
      simp [classifyFlow, hw, hck]
    rw [hcf]
    rfl
  · exact cookieDict_ne_nil cs

theorem C4_success_redirect_witness :
    (naverLoginRun "u" "p" okO).1 =
      .ok ⟨true, "로그인 성공", some (cookieDict [("NID_AUT", "a"), ("NID_SES", "s")])⟩ ∧
    cookieDict [("NID_AUT", "a"), ("NID_SES", "s")] ≠ [] :=
  ⟨(C4_success_redirect "u" "p" okO [("NID_AUT", "a"), ("NID_SES", "s")]
      (by decide) rfl (by decide) (by decide) (by decide) (by decide) (by decide)
      (by decide) rfl rfl).1,
   (C4_success_redirect "u" "p" okO [("NID_AUT", "a"), ("NID_SES", "s")]
      (by decide) rfl (by decide) (by decide) (by decide) (by decide) (by decide)
      (by decide) rfl rfl).2 (by decide)⟩

/-- The canonical redirect happens but the browsing context holds no
cookies at all. -/
def oC4 : Oracle := { okO with cookiesOk := .ok [] }

/-- Counterexample to C4 as stated: the attempt succeeds via the
canonical redirect yet its cookie mapping is empty, because the
context had no cookies and the source returns the mapping unchecked. -/
theorem C4_empty_cookie_mapping_cex :
    (naverLoginRun "u" "p" oC4).1 = .ok ⟨true, "로그인 성공", some []⟩ := by
  decide

/-- C5 (amended): no exception thrown while classifying ever reaches
the caller, but the conversion differs by site.  (a) An exception from
the success branch's cookie collection (line 271) is caught by the
`except` at line 282 and classification *re-enters the URL decision
tree* — the outcome is then whatever the URL and the second cookie
collection dictate (possibly even `Authenticated`), not a fixed
`Indeterminate`.  (b) An exception from the timeout branch's cookie
collection (line 349) escapes to the catch-all at line 368 and is
converted into a returned failure outcome with no cookie set and the
"오류 발생: …" diagnostic.  (c) Exceptions from the page-title /
error-text probes are swallowed in place and cannot change the
classification result at all. -/
theorem C5_classification_exception_converted (u p : String) (o : Oracle) (e : PyErr)
    (hc : (connectRun o).1 = .ok ()) (hctx : o.newContext = .ok ())
    (h1 : (preType o).1 = .ok ()) (h2 : (typeLoop o.typeId 0 u.data).1 = .ok ())
    (h3 : (midFlow o).1 = .ok ()) (h4 : (typeLoop o.typePw 0 p.data).1 = .ok ())
    (h5 : (postType o).1 = .ok ())
    (hclick : (submitLoop o loginButtonSelectors.enum).1 = .ok true) :
    (o.waitUrl = true → o.cookiesOk = .error e →
      (naverLoginRun u p o).1 = .ok (respOf (classifyTimeout o).1)) ∧
    (o.waitUrl = false → challengeUrl o.currentUrl = false →
      pyIn "nidlogin.login" o.currentUrl = false →
      pyIn "nid.naver.com" o.currentUrl = false → o.cookiesTimeout = .error e →
      (naverLoginRun u p o).1 = .ok (errResp e)) ∧
    (∀ t q, (classifyFlow { o with pageTitle := t, qsa := q }).1 = (classifyFlow o).1) := by
  refine ⟨fun hw hck => ?_, fun hw hu1 hu2 hu3 hck => ?_, fun t q => classify_probe_fst o t q⟩
  · rw [run_to_submit u p o hc hctx h1 h2 h3 h4 h5, submitPhase_clicked o hclick]
    have hcf : (classifyFlow o).1 = (classifyTimeout o).1 := by
      simp [classifyFlow, hw, hck]
    rw [hcf]
  · rw [run_to_submit u p o hc hctx h1 h2 h3 h4 h5, submitPhase_clicked o hclick]
    unfold challengeUrl at hu1
    have hcf : (classifyFlow o).1 = .error e := by
      simp [classifyFlow, classifyTimeout, hw, withEvs, urlDecision, hu1, hu2, hu3, hck]
    rw [hcf]
    rfl

/-- The canonical redirect happens but the success branch's cookie
collection throws; the second collection in the re-entered classifier
then finds a marker cookie. -/
def oC5w : Oracle :=
  { okO with cookiesOk := .error (.exn "Page closed"),
             currentUrl := "https://cafe.naver.com/mycafe",
             cookiesTimeout := .ok [("NID_AUT", "a")] }

/-- The success-branch cookie exception does not produce a failure: it
re-enters URL classification, whose second cookie collection finds a
marker cookie, and the attempt returns `Authenticated`. -/
theorem C5_classification_exception_witness :
    (naverLoginRun "u" "p" oC5w).1 =
      .ok ⟨true, "로그인 성공 (현재 URL: https://cafe.naver.com/mycafe)",
           some [("NID_AUT", "a")]⟩ := by
  have h := (C5_classification_exception_converted "u" "p" oC5w (.exn "Page closed")
      (by decide) rfl (by decide) (by decide) (by decide) (by decide) (by decide)
      (by decide)).1 rfl rfl
  rw [h]
  decide

/-- A timeout-branch execution in which the page closes mid-inspection:
the title probe and every error-text probe throw, and the URL carries a
challenge marker. -/
def oC5 : Oracle :=
  { okO with waitUrl := false,
             currentUrl := "https://nid.naver.com/login/captcha",
             pageTitle := .error (.exn "Target closed"),
             qsa := fun _ => .error (.exn "Target closed"),
             cookiesTimeout := .error (.exn "Target closed") }

/-- Counterexample to C5 as stated: an exception is thrown while
classifying (both inspection probes throw), yet the outcome is the
`ChallengeRequired` response — not `Indeterminate` with an empty
cookie set — because the probe exceptions are swallowed by inner
handlers and classification continues on the URL. -/
theorem C5_probe_exception_swallowed_cex :
    (naverLoginRun "u" "p" oC5).1 =
      .ok ⟨false, "캡차 또는 추가 인증이 필요합니다", none⟩ := by
  decide

theorem rbind_snd_ok {α β : Type} {r : ResP α} {a : α} (f : α → ResP β)
    (h : r.1 = .ok a) : (rbind r f).2 = r.2 ++ (f a).2 := by
  rcases r with ⟨x, evs⟩
  cases x <;> simp_all [rbind]

theorem rbind_snd_error {α β : Type} {r : ResP α} {e : PyErr} (f : α → ResP β)
    (h : r.1 = .error e) : (rbind r f).2 = r.2 := by
  rcases r with ⟨x, evs⟩
  cases x <;> simp_all [rbind]

theorem all_notSubmit_map_act (l : List PEv) :
    ((l.map Ev.act).all notSubmitE) = (l.all notSubmitP) := by
  induction l with
  | nil => rfl
  | cons a l ih => simp [notSubmitE, ih]

/-- The attempt's trace once connection and context creation succeed. -/
theorem run_trace (u p : String) (o : Oracle)
    (hc : (connectRun o).1 = .ok ()) (hctx : o.newContext = .ok ()) :
    (naverLoginRun u p o).2 =
      (connectRun o).2 ++ [Ev.act .ctxOpen] ++ (pageFlow u p o).2.map Ev.act ++
      (match (pageFlow u p o).1 with
       | .ok _ => ([] : List Ev)
       | .error e => [errLogEv e]) ++
      finallyEvs true true o := by
  rcases hcr : connectRun o with ⟨cr, cevs⟩
  rw [hcr] at hc
  simp only at hc
  subst hc
  simp only [naverLoginRun, hcr, hctx]

/-- C6: if resolution of the identity field (`wait_for_selector "#id"`)
or of the secret field (`focus "#pw"`) fails, the attempt returns a
failure outcome whose diagnostic (the stringified `TimeoutError`)
names the missing field's selector, and the trace contains no click
and no Enter-press — no form submission is attempted after the
failure. -/
theorem C6_field_resolution_rejected (u p iv : String) (o : Oracle)
    (hc : (connectRun o).1 = .ok ())
    (hctx : o.newContext = .ok ())
    (hNewPage : o.newPage = .ok ())
    (hGotoMain : o.gotoMain = .ok ())
    (hGotoLogin : o.gotoLogin = .ok ())
    (hWaitForm : o.waitForm = true) :
    (o.waitId = false →
      (naverLoginRun u p o).1 = .ok (errResp (.timeout "#id")) ∧
      pyIn "#id" (errResp (PyErr.timeout "#id")).message = true ∧
      ((naverLoginRun u p o).2.all notSubmitE) = true) ∧
    (o.waitId = true → o.mouseMove1 = .ok () → o.mouseMove2 = .ok () →
     o.focusId = true → o.pressCtrlA1 = .ok () → o.pressDel1 = .ok () →
     (∀ j, o.typeId j = .ok ()) → o.inputValueId = .ok iv →
     o.mouseMove3 = .ok () → o.pressTab = .ok () → o.focusPw = false →
      (naverLoginRun u p o).1 = .ok (errResp (.timeout "#pw")) ∧
      pyIn "#pw" (errResp (PyErr.timeout "#pw")).message = true ∧
      ((naverLoginRun u p o).2.all notSubmitE) = true) := by
  constructor
  · intro hId
    have hpre1 : (preType o).1 = .error (.timeout "#id") := by
      simp [preType, rbind, rcallE, rlog, rnav, rwait, rmove, rfocus, rkey,
            hNewPage, hGotoMain, hGotoLogin, hWaitForm, hId]
    have hpreNS : ((preType o).2.all notSubmitP) = true := by
      simp [preType, rbind, rcallE, rlog, rnav, rwait, rmove, rfocus, rkey,
            hNewPage, hGotoMain, hGotoLogin, hWaitForm, hId, notSubmitP]
    have hpf1 : (pageFlow u p o).1 = .error (.timeout "#id") := by
      unfold pageFlow
      exact rbind_fst_error _ hpre1
    have hpf2 : (pageFlow u p o).2 = (preType o).2 := by
      unfold pageFlow
      exact rbind_snd_error _ hpre1
    refine ⟨run_pageFlow_error u p o _ hc hctx hpf1, by decide, ?_⟩
    rw [run_trace u p o hc hctx, hpf1, hpf2]
    simp only [List.all_append, Bool.and_eq_true, all_notSubmit_map_act]
    refine ⟨⟨⟨⟨connectRun_noSubmit o, by decide⟩, hpreNS⟩, by simp [errLogEv, notSubmitE, notSubmitP]⟩,
            by simp [finallyEvs, guardedRel_eq, notSubmitE]⟩
  · intro hId hm1 hm2 hfid hca1 hd1 htid hiv hm3 htab hfpw
    have hpre1 : (preType o).1 = .ok () := by
      simp [preType, rbind, rcallE, rlog, rnav, rwait, rmove, rfocus, rkey,
            hNewPage, hGotoMain, hGotoLogin, hWaitForm, hId, hm1, hm2, hfid, hca1, hd1]
    have hpreNS : ((preType o).2.all notSubmitP) = true := by
      simp [preType, rbind, rcallE, rlog, rnav, rwait, rmove, rfocus, rkey,
            hNewPage, hGotoMain, hGotoLogin, hWaitForm, hId, hm1, hm2, hfid, hca1, hd1,
            notSubmitP]
    have htyp := typeLoop_ok o.typeId htid u.data 0
    have hmid1 : (midFlow o).1 = .error (.timeout "#pw") := by
      simp [midFlow, rbind, rinput, rlog, rmove, rkey, rfocus, hiv, hm3, htab, hfpw]
    have hmidNS : ((midFlow o).2.all notSubmitP) = true := by
      simp [midFlow, rbind, rinput, rlog, rmove, rkey, rfocus, hiv, hm3, htab, hfpw,
            notSubmitP]
    have hpf1 : (pageFlow u p o).1 = .error (.timeout "#pw") := by
      unfold pageFlow
      rw [rbind_fst_ok _ hpre1, rbind_fst_ok _ (by rw [htyp])]
      exact rbind_fst_error _ hmid1
    have hpf2 : (pageFlow u p o).2 =
        (preType o).2 ++ (u.data.map PEv.typeChar ++ (midFlow o).2) := by
      unfold pageFlow
      rw [rbind_snd_ok _ hpre1]
      congr 1
      rw [rbind_snd_ok _ (show (typeLoop o.typeId 0 u.data).1 = .ok () by rw [htyp])]
      congr 1
      · rw [htyp]
      · exact rbind_snd_error _ hmid1
    refine ⟨run_pageFlow_error u p o _ hc hctx hpf1, by decide, ?_⟩
    rw [run_trace u p o hc hctx, hpf1, hpf2]
    simp only [List.all_append, Bool.and_eq_true, all_notSubmit_map_act]
    refine ⟨⟨⟨⟨connectRun_noSubmit o, by decide⟩,
            ⟨hpreNS, ⟨by simp [List.all_map, Function.comp, notSubmitP], hmidNS⟩⟩⟩,
            by simp [errLogEv, notSubmitE, notSubmitP]⟩,
            by simp [finallyEvs, guardedRel_eq, notSubmitE]⟩

/-- The identity field never appears. -/
def oC6 : Oracle := { okO with waitId := false }

/-- The secret field cannot be focused. -/
def oC6b : Oracle := { okO with focusPw := false }

theorem C6_field_resolution_rejected_witness :
    ((naverLoginRun "u" "p" oC6).1 = .ok (errResp (.timeout "#id")) ∧
     pyIn "#id" (errResp (PyErr.timeout "#id")).message = true ∧
     ((naverLoginRun "u" "p" oC6).2.all notSubmitE) = true) ∧
    ((naverLoginRun "u" "p" oC6b).1 = .ok (errResp (.timeout "#pw")) ∧
     pyIn "#pw" (errResp (PyErr.timeout "#pw")).message = true ∧
     ((naverLoginRun "u" "p" oC6b).2.all notSubmitE) = true) :=
  ⟨(C6_field_resolution_rejected "u" "p" "user1" oC6
      (by decide) rfl rfl rfl rfl rfl).1 rfl,
   (C6_field_resolution_rejected "u" "p" "user1" oC6b
      (by decide) rfl rfl rfl rfl rfl).2 rfl rfl rfl rfl rfl rfl
      (fun j => rfl) rfl rfl rfl rfl⟩

/-- C8: submit-control resolution clicks the *first* candidate (in the
priority order of `login_button_selectors`) whose query finds an
element, whose visibility probe succeeds with `True`, whose enabled
probe succeeds with *either* value (a disabled control is still
clicked), and whose click does not throw; an error from probing or
clicking one candidate only disqualifies that candidate.  If no
candidate clicks, the fallback presses Enter on the secret field and
classification proceeds; if the Enter press also throws, the attempt's
submit phase returns the `Rejected` "submit control not found"
outcome. -/
theorem C8_submit_resolution (o : Oracle) :
    ((submitLoop o loginButtonSelectors.enum).1 =
      .ok (loginButtonSelectors.enum.any fun pr => candClicks o pr.1)) ∧
    (∀ i, candClicks o i = true ↔
      (o.query i = .ok true ∧ o.isVisible i = .ok true ∧
       (∃ b, o.isEnabled i = .ok b) ∧ o.click i = .ok ())) ∧
    (∀ pr, loginButtonSelectors.enum.find? (fun x => candClicks o x.1) = some pr →
      (submitLoop o loginButtonSelectors.enum).2.getLast? =
        some (PEv.log ("✅ 로그인 버튼 클릭 성공: " ++ pr.2))) ∧
    ((loginButtonSelectors.enum.any fun pr => candClicks o pr.1) = false →
      o.pressEnter = .ok () → (submitPhase o).1 = (classifyFlow o).1) ∧
    (∀ e, (loginButtonSelectors.enum.any fun pr => candClicks o pr.1) = false →
      o.pressEnter = .error e →
      (submitPhase o).1 = .ok ⟨false, "로그인 버튼을 찾을 수 없습니다", none⟩) := by
  refine ⟨submitLoop_fst o _, candClicks_iff o,
          fun pr h => submitLoop_getLast o _ pr h,
          fun hnone he => submitPhase_fallback o ?_ he,
          fun e hnone he => submitPhase_notFound o e ?_ he⟩
  · rw [submitLoop_fst o, hnone]
  · rw [submitLoop_fst o, hnone]

/-- The first submit candidate is visible but reports itself disabled. -/
def oC8dis : Oracle := { okO with isEnabled := fun _ => .ok false }

/-- Probing the first submit candidate throws; the second is clickable. -/
def oC8err : Oracle :=
  { okO with query := fun i => if i == 0 then .error (.exn "bad locator") else .ok true }

/-- No candidate clicks and the Enter fallback also throws. -/
def oC8none : Oracle :=
  { okO with query := fun _ => .ok false, pressEnter := .error (.exn "no field") }

theorem C8_submit_resolution_witness :
    (submitLoop okO loginButtonSelectors.enum).1 = .ok true ∧
    (submitLoop okO loginButtonSelectors.enum).2.getLast? =
      some (PEv.log ("✅ 로그인 버튼 클릭 성공: " ++ "#log\\.login")) ∧
    (submitLoop oC8dis loginButtonSelectors.enum).1 = .ok true ∧
    (submitLoop oC8err loginButtonSelectors.enum).2.getLast? =
      some (PEv.log ("✅ 로그인 버튼 클릭 성공: " ++ "button#log\\.login")) ∧
    (submitPhase oC8none).1 = .ok ⟨false, "로그인 버튼을 찾을 수 없습니다", none⟩ :=
  ⟨by rw [(C8_submit_resolution okO).1]; decide,
   (C8_submit_resolution okO).2.2.1 (0, "#log\\.login") (by decide),
   by rw [(C8_submit_resolution oC8dis).1]; decide,
   (C8_submit_resolution oC8err).2.2.1 (1, "button#log\\.login") (by decide),
   (C8_submit_resolution oC8none).2.2.2.2 (.exn "no field") (by decide) rfl⟩

/-! ### C9: the secret never flows into logs or the outcome -/

theorem rbind_pw {α : Type} (t1 t2 : ResP Unit) (g : Unit → ResP α)
    (hfst : t1.1 = t2.1) (hlog1 : logsP t1.2 = []) (hlog2 : logsP t2.2 = []) :
    (rbind t1 g).1 = (rbind t2 g).1 ∧ logsP (rbind t1 g).2 = logsP (rbind t2 g).2 := by
  rcases t1 with ⟨x1, e1⟩
  rcases t2 with ⟨x2, e2⟩
  simp only at hfst hlog1 hlog2
  subst hfst
  cases x1 with
  | error e => simp [rbind, hlog1, hlog2]
  | ok a => simp [rbind, logsP_append, hlog1, hlog2]

theorem rbind_cont {α β : Type} (r : ResP α) (f1 f2 : α → ResP β)
    (h : ∀ a, (f1 a).1 = (f2 a).1 ∧ logsP (f1 a).2 = logsP (f2 a).2) :
    (rbind r f1).1 = (rbind r f2).1 ∧ logsP (rbind r f1).2 = logsP (rbind r f2).2 := by
  rcases r with ⟨x, evs⟩
  cases x with
  | error e => simp [rbind]
  | ok a => simp [rbind, logsP_append, (h a).1, (h a).2]

theorem pageFlow_pw_indep (u p1 p2 : String) (o : Oracle)
    (hlen : p1.length = p2.length) :
    (pageFlow u p1 o).1 = (pageFlow u p2 o).1 ∧
    logsP (pageFlow u p1 o).2 = logsP (pageFlow u p2 o).2 := by
  unfold pageFlow
  apply rbind_cont
  intro _
  apply rbind_cont
  intro _
  apply rbind_cont
  intro _
  exact rbind_pw _ _ _ (typeLoop_fst_len o.typePw p1.data p2.data 0 hlen)
    (typeLoop_logs o.typePw p1.data 0) (typeLoop_logs o.typePw p2.data 0)

/-- C9: the secret influences neither the emitted log lines nor the
returned outcome (success flag, message, cookies): two attempts that
differ only in the password — of equal length, so the keystroke loop
makes the same number of calls — produce identical results and
identical logs.  The only content-bearing uses of the secret are the
keystroke events sent to the remote form; the "비밀번호 입력 확인"
log line contains only the length of the field's echoed value. -/
theorem C9_secret_not_in_logs_or_outcome (u p1 p2 : String) (o : Oracle)
    (hlen : p1.length = p2.length) :
    (naverLoginRun u p1 o).1 = (naverLoginRun u p2 o).1 ∧
    logsOf (naverLoginRun u p1 o).2 = logsOf (naverLoginRun u p2 o).2 := by
  have hpf := pageFlow_pw_indep u p1 p2 o hlen
  rcases hcr : connectRun o with ⟨cr, cevs⟩
  cases cr with
  | error e =>
    simp only [naverLoginRun, hcr]
    exact ⟨trivial, trivial⟩
  | ok a =>
    cases hctx : o.newContext with
    | error e =>
      simp only [naverLoginRun, hcr, hctx]
      exact ⟨trivial, trivial⟩
    | ok a2 =>
      simp only [naverLoginRun, hcr, hctx]
      refine ⟨by rw [hpf.1], ?_⟩
      simp only [logsOf_append, logsOf_map_act, hpf.1, hpf.2]

theorem C9_secret_not_in_logs_or_outcome_witness :
    (naverLoginRun "u" "secretA" okO).1 = (naverLoginRun "u" "secretB" okO).1 ∧
    logsOf (naverLoginRun "u" "secretA" okO).2 =
      logsOf (naverLoginRun "u" "secretB" okO).2 :=
  C9_secret_not_in_logs_or_outcome "u" "secretA" "secretB" okO (by decide)
